import Mathlib

/-! Shallow embedding of the Bytescale storage provider adapter
(`src/providers/bytescale/service.ts`, class `BytescaleFileProviderService`)
and verification of its specification.

The adapter is a thin binding over an external remote client (the Bytescale
SDK: `UploadManager.upload`, `FileApi.deleteFile`, `FileApi.downloadFile`,
`UrlBuilder.url`).  The remote client is modelled as a function parameter of
each operation, so every theorem quantifies over all remote behaviours.
Effects (remote calls, logger output) are made explicit as trace lists
returned alongside each operation's result; a thrown JS error is an
`Except.error`. -/

namespace Bytescale

/-- Models the JS `String.prototype.startsWith` used by `getUploadPath`. -/
def jsStartsWith (s pre : String) : Bool := List.isPrefixOf pre.data s.data

/-- Models the JS `String.prototype.endsWith` used by `getUploadPath`. -/
def jsEndsWith (s post : String) : Bool := List.isSuffixOf post.data s.data

/-- Models the JS `String.prototype.slice(0, -1)` used by `getUploadPath`:
drops the last character. -/
def jsSliceDropLast (s : String) : String := ⟨s.data.dropLast⟩

/-- Models the JS `String.prototype.length`. -/
def jsLength (s : String) : Nat := s.data.length

/-- Models JS string falsiness for an optional option field:
`undefined`/absent and the empty string are falsy (`!options.apiKey`). -/
def jsFalsy : Option String → Bool
  | none => true
  | some s => s.data.isEmpty

/-- A `MedusaError` as thrown by `validateOptions`
(`new MedusaError(MedusaError.Types.INVALID_DATA, message)`). -/
structure MedusaError where
  errType : String
  message : String
deriving DecidableEq, Repr

/-- The `MedusaError.Types.INVALID_DATA` tag. -/
def invalidData : String := "invalid_data"

/-- An error raised by the remote client (a JS `Error`); the adapter reads
its `.message` when logging.  Re-raising unchanged is modelled as returning
the same `RemoteError` value. -/
structure RemoteError where
  message : String
deriving DecidableEq, Repr

/-- A structured log event emitted through the injected `logger` (`error` or
`warn` level, with the formatted message). -/
inductive LogEvent where
  | error (msg : String)
  | warn (msg : String)
deriving DecidableEq, Repr

/-- The `BytescaleOptions` object.  `apiKey`/`accountId` are `Option` because
a raw options record may omit them (JS `undefined`); `prefixOpt` embeds the
optional `prefix` field (renamed: its source name is a Lean keyword). -/
structure BytescaleOptions where
  apiKey : Option String
  accountId : Option String
  prefixOpt : Option String
deriving DecidableEq, Repr

/-- `static validateOptions(options)`: throws `MedusaError(INVALID_DATA, ...)`
when `apiKey` is falsy, then when `accountId` is falsy; otherwise returns. -/
def validateOptions (options : BytescaleOptions) : Except MedusaError Unit :=
  if jsFalsy options.apiKey then
    .error { errType := invalidData
             message := "Bytescale provider requires 'apiKey' option." }
  else if jsFalsy options.accountId then
    .error { errType := invalidData
             message := "Bytescale provider requires 'accountId' option." }
  else
    .ok ()

/-- Observable construction steps: the constructor builds the two SDK client
objects (`new Bytescale.UploadManager`, `new Bytescale.FileApi`); neither SDK
constructor performs any network call, so a network call could only appear as
a `networkCall` event, and none is ever emitted. -/
inductive ConstructEvent where
  | clientConstructed (name : String)
  | networkCall (name : String)
deriving DecidableEq, Repr

/-- Adapter state after a successful construction (the configuration; the
client handles are represented by the construction event trace). -/
structure ServiceState where
  options_ : BytescaleOptions
deriving DecidableEq, Repr

/-- The constructor: stores options and logger, runs `validateOptions`
(throwing aborts construction before any client is built), then constructs
the `UploadManager` and `FileApi` clients.  Returns the outcome together
with the trace of construction events. -/
def constructService (options : BytescaleOptions) :
    Except MedusaError ServiceState × List ConstructEvent :=
  match validateOptions options with
  | .error e => (.error e, [])
  | .ok _ =>
      (.ok { options_ := options },
       [ConstructEvent.clientConstructed "UploadManager",
        ConstructEvent.clientConstructed "FileApi"])

/-- `getUploadPath()`: `let folderPath = this.options_.prefix || "/uploads"`,
prepend `/` when missing, and `slice(0, -1)` when length exceeds 1 and the
string ends with `/`. -/
def getUploadPath (prefixOpt : Option String) : String :=
  let fp0 : String :=
    match prefixOpt with
    | none => "/uploads"
    | some s => if s.data.isEmpty then "/uploads" else s
  let fp1 : String := if jsStartsWith fp0 "/" then fp0 else "/" ++ fp0
  if jsLength fp1 > 1 && jsEndsWith fp1 "/" then jsSliceDropLast fp1 else fp1

/-- File content accepted by `upload` (`string | Buffer | Stream`); the
adapter passes it through untouched, so only its identity matters.  A stream
value carries the identity of the underlying stream object. -/
inductive FileContent where
  | bytes (data : List Nat)
  | text (s : String)
  | stream (id : Nat)
deriving DecidableEq, Repr

/-- `ProviderUploadFileDTO`: the host's upload request. -/
structure ProviderUploadFileDTO where
  content : FileContent
  mimeType : String
  filename : String
deriving DecidableEq, Repr

/-- `ProviderUploadStreamDTO`: the host's streaming-upload request. -/
structure ProviderUploadStreamDTO where
  filename : String
  mimeType : String
deriving DecidableEq, Repr

/-- `ProviderFileResultDTO`: what the adapter returns to the host. -/
structure ProviderFileResultDTO where
  url : String
  key : String
deriving DecidableEq, Repr

/-- `ProviderDeleteFileDTO`: one delete request entry. -/
structure ProviderDeleteFileDTO where
  fileKey : String
deriving DecidableEq, Repr

/-- `ProviderGetFileDTO`: the host's download / URL request.  Only `fileKey`
is read by the adapter; `isPrivate` stands for the rest of the request. -/
structure ProviderGetFileDTO where
  fileKey : String
  isPrivate : Bool
deriving DecidableEq, Repr

/-- The argument object of the remote `uploadManager_.upload({data, mime,
originalFileName, path: {folderPath}})` call. -/
structure UploadArgs where
  data : FileContent
  mime : String
  originalFileName : String
  folderPath : String
deriving DecidableEq, Repr

/-- The remote upload result (`result.fileUrl`, `result.filePath`). -/
structure UploadApiResult where
  fileUrl : String
  filePath : String
deriving DecidableEq, Repr

/-- The argument object of the remote `fileApi_.deleteFile` and
`fileApi_.downloadFile` calls (`{accountId, filePath}`). -/
structure DeleteArgs where
  accountId : String
  filePath : String
deriving DecidableEq, Repr

/-- The remote `downloadFile` response: its raw body is a byte stream,
modelled as the list of chunks it yields (each chunk a list of bytes). -/
structure DownloadResponse where
  chunks : List (List Nat)
deriving DecidableEq, Repr

/-- `upload(file)`: one remote `upload` call with the file's content, mime
type and filename unchanged and `folderPath` from `getUploadPath`; on success
returns `{url: result.fileUrl, key: result.filePath}`; on error logs
`Bytescale upload failed for <filename>: <message>` and re-throws.  Returns
(result, remote-call trace, log trace). -/
def upload (prefixOpt : Option String)
    (remoteUpload : UploadArgs → Except RemoteError UploadApiResult)
    (file : ProviderUploadFileDTO) :
    Except RemoteError ProviderFileResultDTO × List UploadArgs × List LogEvent :=
  let args : UploadArgs :=
    { data := file.content
      mime := file.mimeType
      originalFileName := file.filename
      folderPath := getUploadPath prefixOpt }
  match remoteUpload args with
  | .ok result => (.ok { url := result.fileUrl, key := result.filePath }, [args], [])
  | .error e =>
      (.error e, [args],
       [LogEvent.error
          ("Bytescale upload failed for " ++ file.filename ++ ": " ++ e.message)])

/-- The argument of `delete`: a single `ProviderDeleteFileDTO` or an array
(`Array.isArray(files)`). -/
inductive DeleteInput where
  | single (file : ProviderDeleteFileDTO)
  | batch (files : List ProviderDeleteFileDTO)
deriving DecidableEq, Repr

/-- `const fileArray = Array.isArray(files) ? files : [files]`. -/
def normalizeDeleteInput : DeleteInput → List ProviderDeleteFileDTO
  | .single f => [f]
  | .batch fs => fs

/-- One iteration of the `delete` batch: issues the remote
`deleteFile({accountId, filePath})` call, whose outcome for this entry is
given by `outcome`; a failure is caught and logged as a warning
(`Bytescale delete failed for <fileKey>: <message>`), never re-thrown, so
the per-entry promise always resolves.  Returns (per-entry result,
remote-call trace, log trace). -/
def deleteOne (accountId : String) (outcome : Option RemoteError)
    (file : ProviderDeleteFileDTO) :
    Except RemoteError Unit × List DeleteArgs × List LogEvent :=
  let args : DeleteArgs := { accountId := accountId, filePath := file.fileKey }
  let remoteResult : Except RemoteError Unit :=
    match outcome with
    | some e => .error e
    | none => .ok ()
  match remoteResult with
  | .ok _ => (.ok (), [args], [])
  | .error e =>
      (.ok (), [args],
       [LogEvent.warn
          ("Bytescale delete failed for " ++ file.fileKey ++ ": " ++ e.message)])

/-- Whether an `Except` computation succeeded (a promise that resolved). -/
def exceptIsOk : Except RemoteError Unit → Bool
  | .ok _ => true
  | .error _ => false

/-- The fan-out of `fileArray.map(async (file) => ...)`: entry `i`'s remote
outcome is `outcomes i`.  Aggregates the remote-call and log traces and
whether every per-entry promise resolved (`Promise.all` resolves exactly when
all do). -/
def deleteLoop (accountId : String) (outcomes : Nat → Option RemoteError) :
    List ProviderDeleteFileDTO → Nat → List DeleteArgs × List LogEvent × Bool
  | [], _ => ([], [], true)
  | f :: rest, i =>
      let r := deleteOne accountId (outcomes i) f
      let tail := deleteLoop accountId outcomes rest (i + 1)
      (r.2.1 ++ tail.1, r.2.2 ++ tail.2.1, exceptIsOk r.1 && tail.2.2)

/-- The observable outcome of a `delete` call. -/
structure DeleteOutcome where
  resolved : Bool
  calls : List DeleteArgs
  logs : List LogEvent
deriving DecidableEq, Repr

/-- `delete(files)`: normalizes to an array and awaits the fan-out. -/
def deleteOp (accountId : String) (outcomes : Nat → Option RemoteError)
    (files : DeleteInput) : DeleteOutcome :=
  let fileArray := normalizeDeleteInput files
  let r := deleteLoop accountId outcomes fileArray 0
  { resolved := r.2.2, calls := r.1, logs := r.2.1 }

/-- `getPresignedDownloadUrl(fileData)`: returns
`UrlBuilder.url({accountId, filePath: fileData.fileKey})`; `UrlBuilder.url`
is a pure SDK function (parameter `urlBuilder`, which may throw); on error
logs `Bytescale URL gen failed: <message>` and re-throws.  The middle
component is the remote network-call trace: no network call is made. -/
def getPresignedDownloadUrl (accountId : String)
    (urlBuilder : String → String → Except RemoteError String)
    (fileData : ProviderGetFileDTO) :
    Except RemoteError String × List DeleteArgs × List LogEvent :=
  match urlBuilder accountId fileData.fileKey with
  | .ok url => (.ok url, [], [])
  | .error e =>
      (.error e, [],
       [LogEvent.error ("Bytescale URL gen failed: " ++ e.message)])

/-- The handle returned by `getUploadStream`: the `PassThrough` write stream,
the completion promise (its eventual settlement), and the predicted `url` and
`fileKey`. -/
structure UploadStreamHandle where
  writeStreamId : Nat
  promise : Except RemoteError ProviderFileResultDTO
  url : String
  fileKey : String
deriving Repr

/-- `getUploadStream(fileData)`: creates a `PassThrough` (stream id 0),
predicts `expectedKey = folderPath + "/" + filename` and
`expectedUrl = UrlBuilder.url({accountId, filePath: expectedKey})`, initiates
the remote upload with the pass-through as data and maps its result to
`{url: fileUrl, key: filePath}` as the promise, and returns the handle
synchronously.  A promise rejection is not caught by the surrounding
try/catch; only a synchronous throw (from `UrlBuilder.url`) is logged as
`Bytescale upload stream failed: <message>` and re-thrown. -/
def getUploadStream (accountId : String) (prefixOpt : Option String)
    (urlBuilder : String → String → Except RemoteError String)
    (remoteUpload : UploadArgs → Except RemoteError UploadApiResult)
    (fileData : ProviderUploadStreamDTO) :
    Except RemoteError UploadStreamHandle × List LogEvent :=
  let pass : FileContent := .stream 0
  let folderPath := getUploadPath prefixOpt
  let expectedKey := folderPath ++ "/" ++ fileData.filename
  match urlBuilder accountId expectedKey with
  | .error e =>
      (.error e, [LogEvent.error ("Bytescale upload stream failed: " ++ e.message)])
  | .ok expectedUrl =>
      let uploadPromise : Except RemoteError ProviderFileResultDTO :=
        match remoteUpload { data := pass
                             mime := fileData.mimeType
                             originalFileName := fileData.filename
                             folderPath := folderPath } with
        | .ok result => .ok { url := result.fileUrl, key := result.filePath }
        | .error e => .error e
      (.ok { writeStreamId := 0
             promise := uploadPromise
             url := expectedUrl
             fileKey := expectedKey }, [])

/-- `getDownloadStream(fileData)`: one remote
`downloadFile({accountId, filePath: fileData.fileKey})` call; on success
returns `response.raw.body`, the response's chunk stream, unbuffered; on
error logs `Bytescale download stream failed: <message>` and re-throws.
Returns (result, remote-call trace, log trace). -/
def getDownloadStream (accountId : String)
    (remoteDownload : DeleteArgs → Except RemoteError DownloadResponse)
    (fileData : ProviderGetFileDTO) :
    Except RemoteError (List (List Nat)) × List DeleteArgs × List LogEvent :=
  let args : DeleteArgs := { accountId := accountId, filePath := fileData.fileKey }
  match remoteDownload args with
  | .ok response => (.ok response.chunks, [args], [])
  | .error e =>
      (.error e, [args],
       [LogEvent.error ("Bytescale download stream failed: " ++ e.message)])

/-- `getAsBuffer(fileData)`: one remote `downloadFile` call; on success
returns `response.raw.buffer()`, which materializes the body stream into one
buffer — the concatenation of its chunks; on error logs
`Bytescale buffer download failed: <message>` and re-throws. -/
def getAsBuffer (accountId : String)
    (remoteDownload : DeleteArgs → Except RemoteError DownloadResponse)
    (fileData : ProviderGetFileDTO) :
    Except RemoteError (List Nat) × List DeleteArgs × List LogEvent :=
  let args : DeleteArgs := { accountId := accountId, filePath := fileData.fileKey }
  match remoteDownload args with
  | .ok response => (.ok response.chunks.flatten, [args], [])
  | .error e =>
      (.error e, [args],
       [LogEvent.error ("Bytescale buffer download failed: " ++ e.message)])

/-- Characterization of the delete fan-out: regardless of the per-entry
outcomes, every entry's remote call is issued with the configured account id
and that entry's file key, each failing entry produces one warning log, and
every per-entry promise resolves. -/
theorem deleteLoop_spec (accountId : String) (outcomes : Nat → Option RemoteError)
    (l : List ProviderDeleteFileDTO) (i : Nat) :
    deleteLoop accountId outcomes l i =
      (l.map (fun f => ({ accountId := accountId, filePath := f.fileKey } : DeleteArgs)),
       (List.enumFrom i l).filterMap (fun p =>
          match outcomes p.1 with
          | some e => some (LogEvent.warn
              ("Bytescale delete failed for " ++ p.2.fileKey ++ ": " ++ e.message))
          | none => none),
       true) := by
  induction l generalizing i with
  | nil => rfl
  | cons f rest ih =>
      cases h : outcomes i <;>
        simp [deleteLoop, deleteOne, exceptIsOk, List.enumFrom, h, ih]

/-- Claim C1: for every batch of delete requests (a single request is
normalized into a one-element batch) and every pattern of per-item failures
of the remote `deleteFile` call, `delete` resolves successfully, issues
exactly one remote `deleteFile` call per entry with the configured
`accountId` and that entry's `fileKey` (so no failure prevents a sibling's
call), and logs each failing entry as a warning — for every failure pattern,
including all-fail and none-fail. -/
theorem delete_partial_failure_policy (accountId : String)
    (outcomes : Nat → Option RemoteError) (files : DeleteInput) :
    (deleteOp accountId outcomes files).resolved = true ∧
    (deleteOp accountId outcomes files).calls =
      (normalizeDeleteInput files).map
        (fun f => ({ accountId := accountId, filePath := f.fileKey } : DeleteArgs)) ∧
    (deleteOp accountId outcomes files).logs =
      (List.enumFrom 0 (normalizeDeleteInput files)).filterMap (fun p =>
        match outcomes p.1 with
        | some e => some (LogEvent.warn
            ("Bytescale delete failed for " ++ p.2.fileKey ++ ": " ++ e.message))
        | none => none) := by
  simp [deleteOp, deleteLoop_spec]

/-- Claim C10: `delete` applied to an empty array of requests resolves
successfully, issues zero remote `deleteFile` calls, and logs nothing. -/
theorem delete_empty_batch (accountId : String)
    (outcomes : Nat → Option RemoteError) :
    deleteOp accountId outcomes (DeleteInput.batch []) =
      { resolved := true, calls := [], logs := [] } := rfl

/-- Claim C9: the folder-path normalization maps `undefined` to `/uploads`,
`media` to `/media`, `/media/` to `/media`, `/` to `/`, and the empty string
to `/uploads` (falsy, takes the default). -/
theorem getUploadPath_examples :
    getUploadPath none = "/uploads" ∧
    getUploadPath (some "media") = "/media" ∧
    getUploadPath (some "/media/") = "/media" ∧
    getUploadPath (some "/") = "/" ∧
    getUploadPath (some "") = "/uploads" := by
  decide

/-- Claim C3 fails on the code: `getUploadPath` strips only one trailing
slash, so the prefix `"a//"` normalizes to `"/a/"`, which ends with `/` yet
is not exactly `"/"` — contradicting the function's own doc comment
("Leading slash, no trailing slash"). -/
theorem getUploadPath_trailing_slash_bug :
    getUploadPath (some "a//") = "/a/" ∧
    jsEndsWith (getUploadPath (some "a//")) "/" = true ∧
    getUploadPath (some "a//") ≠ "/" := by
  decide

/-- Claim C4: construction fails with an `INVALID_DATA` `MedusaError` — with
no client constructed and no network call (empty construction trace) —
exactly when `apiKey` or `accountId` is missing or empty; with both non-empty
it succeeds, constructing the two SDK clients and making no network call. -/
theorem constructService_validation (options : BytescaleOptions) :
    ((jsFalsy options.apiKey || jsFalsy options.accountId) = true →
      ∃ e, constructService options = (.error e, []) ∧ e.errType = invalidData) ∧
    ((jsFalsy options.apiKey || jsFalsy options.accountId) = false →
      constructService options =
        (.ok { options_ := options },
         [ConstructEvent.clientConstructed "UploadManager",
          ConstructEvent.clientConstructed "FileApi"])) := by
  constructor
  · intro h
    cases ha : jsFalsy options.apiKey with
    | true =>
        exact ⟨{ errType := invalidData
                 message := "Bytescale provider requires 'apiKey' option." },
               by simp [constructService, validateOptions, ha], rfl⟩
    | false =>
        have hb : jsFalsy options.accountId = true := by
          rw [ha] at h
          simpa using h
        exact ⟨{ errType := invalidData
                 message := "Bytescale provider requires 'accountId' option." },
               by simp [constructService, validateOptions, ha, hb], rfl⟩
  · intro h
    have ha : jsFalsy options.apiKey = false := by
      cases hx : jsFalsy options.apiKey
      · rfl
      · rw [hx] at h; simp at h
    have hb : jsFalsy options.accountId = false := by
      cases hx : jsFalsy options.accountId
      · rfl
      · rw [hx] at h; simp at h
    simp [constructService, validateOptions, ha, hb]

/-- Witness for C4: construction with an empty `apiKey` fails with
`INVALID_DATA` and an empty trace; construction with both options non-empty
succeeds with the two clients constructed and no network call. -/
theorem constructService_validation_witness :
    (∃ e, constructService
        { apiKey := some "", accountId := some "acct", prefixOpt := none }
        = (.error e, []) ∧ e.errType = invalidData) ∧
    constructService { apiKey := some "k", accountId := some "acct", prefixOpt := none }
      = (.ok { options_ :=
                 { apiKey := some "k", accountId := some "acct", prefixOpt := none } },
         [ConstructEvent.clientConstructed "UploadManager",
          ConstructEvent.clientConstructed "FileApi"]) :=
  ⟨(constructService_validation
      { apiKey := some "", accountId := some "acct", prefixOpt := none }).1 (by decide),
   (constructService_validation
      { apiKey := some "k", accountId := some "acct", prefixOpt := none }).2 (by decide)⟩

/-- Claim C5: when the remote upload call returns `{fileUrl: X, filePath:
Y}`, `upload` returns exactly `{url: X, key: Y}`, and the adapter issues one
remote call passing `content`, `mimeType` and `filename` unchanged with
`folderPath` equal to the normalized prefix. -/
theorem upload_round_trip (prefixOpt : Option String)
    (remoteUpload : UploadArgs → Except RemoteError UploadApiResult)
    (file : ProviderUploadFileDTO) (x y : String)
    (h : remoteUpload
        { data := file.content
          mime := file.mimeType
          originalFileName := file.filename
          folderPath := getUploadPath prefixOpt }
      = .ok { fileUrl := x, filePath := y }) :
    (upload prefixOpt remoteUpload file).1 = .ok { url := x, key := y } ∧
    (upload prefixOpt remoteUpload file).2.1 =
      [{ data := file.content
         mime := file.mimeType
         originalFileName := file.filename
         folderPath := getUploadPath prefixOpt }] := by
  simp [upload, h]

/-- Witness for C5: a remote client answering `{fileUrl: "https://x/f.png",
filePath: "/uploads/f.png"}` makes `upload` return exactly that pair, with
one remote call carrying the request unchanged. -/
theorem upload_round_trip_witness :
    (upload none
        (fun _ => .ok { fileUrl := "https://x/f.png", filePath := "/uploads/f.png" })
        { content := .bytes [1, 2], mimeType := "image/png", filename := "f.png" }).1
      = .ok { url := "https://x/f.png", key := "/uploads/f.png" } ∧
    (upload none
        (fun _ => .ok { fileUrl := "https://x/f.png", filePath := "/uploads/f.png" })
        { content := .bytes [1, 2], mimeType := "image/png", filename := "f.png" }).2.1
      = [{ data := .bytes [1, 2]
           mime := "image/png"
           originalFileName := "f.png"
           folderPath := getUploadPath none }] :=
  upload_round_trip none
    (fun _ => .ok { fileUrl := "https://x/f.png", filePath := "/uploads/f.png" })
    { content := .bytes [1, 2], mimeType := "image/png", filename := "f.png" }
    "https://x/f.png" "/uploads/f.png" rfl

/-- Claim C6: every remote-client error in `upload`, `getDownloadStream`,
`getAsBuffer` or `getPresignedDownloadUrl` is logged as exactly one
error-level event and then re-raised unchanged; none of these operations
swallows a remote error. -/
theorem remote_error_logged_and_reraised :
    (∀ (prefixOpt : Option String)
       (remoteUpload : UploadArgs → Except RemoteError UploadApiResult)
       (file : ProviderUploadFileDTO) (e : RemoteError),
       remoteUpload
           { data := file.content
             mime := file.mimeType
             originalFileName := file.filename
             folderPath := getUploadPath prefixOpt }
         = .error e →
       (upload prefixOpt remoteUpload file).1 = .error e ∧
       (upload prefixOpt remoteUpload file).2.2 =
         [LogEvent.error
            ("Bytescale upload failed for " ++ file.filename ++ ": " ++ e.message)]) ∧
    (∀ (accountId : String)
       (remoteDownload : DeleteArgs → Except RemoteError DownloadResponse)
       (fd : ProviderGetFileDTO) (e : RemoteError),
       remoteDownload { accountId := accountId, filePath := fd.fileKey } = .error e →
       (getDownloadStream accountId remoteDownload fd).1 = .error e ∧
       (getDownloadStream accountId remoteDownload fd).2.2 =
         [LogEvent.error ("Bytescale download stream failed: " ++ e.message)]) ∧
    (∀ (accountId : String)
       (remoteDownload : DeleteArgs → Except RemoteError DownloadResponse)
       (fd : ProviderGetFileDTO) (e : RemoteError),
       remoteDownload { accountId := accountId, filePath := fd.fileKey } = .error e →
       (getAsBuffer accountId remoteDownload fd).1 = .error e ∧
       (getAsBuffer accountId remoteDownload fd).2.2 =
         [LogEvent.error ("Bytescale buffer download failed: " ++ e.message)]) ∧
    (∀ (accountId : String)
       (urlBuilder : String → String → Except RemoteError String)
       (fd : ProviderGetFileDTO) (e : RemoteError),
       urlBuilder accountId fd.fileKey = .error e →
       (getPresignedDownloadUrl accountId urlBuilder fd).1 = .error e ∧
       (getPresignedDownloadUrl accountId urlBuilder fd).2.2 =
         [LogEvent.error ("Bytescale URL gen failed: " ++ e.message)]) := by
  refine ⟨?_, ?_, ?_, ?_⟩
  · intro prefixOpt remoteUpload file e h
    simp [upload, h]
  · intro accountId remoteDownload fd e h
    simp [getDownloadStream, h]
  · intro accountId remoteDownload fd e h
    simp [getAsBuffer, h]
  · intro accountId urlBuilder fd e h
    simp [getPresignedDownloadUrl, h]

/-- Witness for C6: a remote client that always raises `boom` makes each of
the four operations re-raise `boom`. -/
theorem remote_error_logged_and_reraised_witness :
    (upload none (fun _ => .error { message := "boom" })
        { content := .text "d", mimeType := "t", filename := "f" }).1
      = .error { message := "boom" } ∧
    (getDownloadStream "acct" (fun _ => .error { message := "boom" })
        { fileKey := "/k", isPrivate := false }).1 = .error { message := "boom" } ∧
    (getAsBuffer "acct" (fun _ => .error { message := "boom" })
        { fileKey := "/k", isPrivate := false }).1 = .error { message := "boom" } ∧
    (getPresignedDownloadUrl "acct" (fun _ _ => .error { message := "boom" })
        { fileKey := "/k", isPrivate := false }).1 = .error { message := "boom" } :=
  ⟨(remote_error_logged_and_reraised.1 none (fun _ => .error { message := "boom" })
      { content := .text "d", mimeType := "t", filename := "f" } _ rfl).1,
   (remote_error_logged_and_reraised.2.1 "acct" (fun _ => .error { message := "boom" })
      { fileKey := "/k", isPrivate := false } _ rfl).1,
   (remote_error_logged_and_reraised.2.2.1 "acct" (fun _ => .error { message := "boom" })
      { fileKey := "/k", isPrivate := false } _ rfl).1,
   (remote_error_logged_and_reraised.2.2.2 "acct" (fun _ _ => .error { message := "boom" })
      { fileKey := "/k", isPrivate := false } _ rfl).1⟩

/-- Claim C7: `getPresignedDownloadUrl` is deterministic and pure — its
whole observable outcome depends only on `accountId` and the request's
`fileKey` (two requests agreeing there give identical results), and its
remote network-call trace is empty. -/
theorem getPresignedDownloadUrl_pure (accountId : String)
    (urlBuilder : String → String → Except RemoteError String)
    (fd fd' : ProviderGetFileDTO) (h : fd.fileKey = fd'.fileKey) :
    getPresignedDownloadUrl accountId urlBuilder fd =
      getPresignedDownloadUrl accountId urlBuilder fd' ∧
    (getPresignedDownloadUrl accountId urlBuilder fd).2.1 = [] := by
  constructor
  · simp [getPresignedDownloadUrl, h]
  · cases h2 : urlBuilder accountId fd.fileKey <;>
      simp [getPresignedDownloadUrl, h2]

/-- Witness for C7: two requests sharing a `fileKey` but differing elsewhere
give identical URL results, with no network call. -/
theorem getPresignedDownloadUrl_pure_witness :
    getPresignedDownloadUrl "acct" (fun a k => .ok (a ++ k))
        { fileKey := "/k", isPrivate := false } =
      getPresignedDownloadUrl "acct" (fun a k => .ok (a ++ k))
        { fileKey := "/k", isPrivate := true } ∧
    (getPresignedDownloadUrl "acct" (fun a k => .ok (a ++ k))
        { fileKey := "/k", isPrivate := false }).2.1 = [] :=
  getPresignedDownloadUrl_pure "acct" (fun a k => .ok (a ++ k))
    { fileKey := "/k", isPrivate := false } { fileKey := "/k", isPrivate := true } rfl

/-- Claim C8: on the same remote download response, the buffer returned by
`getAsBuffer` is the concatenation of the chunks of the stream returned by
`getDownloadStream`, and each operation issues exactly one remote fetch. -/
theorem getAsBuffer_eq_stream_concat (accountId : String)
    (remoteDownload : DeleteArgs → Except RemoteError DownloadResponse)
    (fd : ProviderGetFileDTO) (resp : DownloadResponse)
    (h : remoteDownload { accountId := accountId, filePath := fd.fileKey } = .ok resp) :
    (getAsBuffer accountId remoteDownload fd).1 = .ok resp.chunks.flatten ∧
    (getDownloadStream accountId remoteDownload fd).1 = .ok resp.chunks ∧
    (getAsBuffer accountId remoteDownload fd).2.1 =
      [{ accountId := accountId, filePath := fd.fileKey }] ∧
    (getDownloadStream accountId remoteDownload fd).2.1 =
      [{ accountId := accountId, filePath := fd.fileKey }] := by
  simp [getAsBuffer, getDownloadStream, h]

/-- Witness for C8: on a fixture with chunks `[[1,2],[3]]`, the buffer is
`[1,2,3]`, the stream is the chunk list, and each issues one fetch. -/
theorem getAsBuffer_eq_stream_concat_witness :
    (getAsBuffer "acct" (fun _ => .ok { chunks := [[1, 2], [3]] })
        { fileKey := "/k", isPrivate := false }).1
      = .ok (DownloadResponse.mk [[1, 2], [3]]).chunks.flatten ∧
    (getDownloadStream "acct" (fun _ => .ok { chunks := [[1, 2], [3]] })
        { fileKey := "/k", isPrivate := false }).1
      = .ok (DownloadResponse.mk [[1, 2], [3]]).chunks ∧
    (getAsBuffer "acct" (fun _ => .ok { chunks := [[1, 2], [3]] })
        { fileKey := "/k", isPrivate := false }).2.1
      = [{ accountId := "acct", filePath := "/k" }] ∧
    (getDownloadStream "acct" (fun _ => .ok { chunks := [[1, 2], [3]] })
        { fileKey := "/k", isPrivate := false }).2.1
      = [{ accountId := "acct", filePath := "/k" }] :=
  getAsBuffer_eq_stream_concat "acct" (fun _ => .ok { chunks := [[1, 2], [3]] })
    { fileKey := "/k", isPrivate := false } (DownloadResponse.mk [[1, 2], [3]]) rfl

/-- Claim C2: when the remote upload honors the naming rule — it returns
`filePath` equal to the normalized folder path plus `/` plus the request's
filename, and `fileUrl` equal to the URL built from `accountId` and that
`filePath` — the `fileKey` and `url` returned synchronously in the handle
from `getUploadStream` equal the key and url produced by the handle's
completion promise. -/
theorem getUploadStream_predicted_matches_final (accountId : String)
    (prefixOpt : Option String)
    (urlBuilder : String → String → Except RemoteError String)
    (remoteUpload : UploadArgs → Except RemoteError UploadApiResult)
    (fileData : ProviderUploadStreamDTO) (u : String)
    (hurl : urlBuilder accountId
        (getUploadPath prefixOpt ++ "/" ++ fileData.filename) = .ok u)
    (hremote : remoteUpload
        { data := FileContent.stream 0
          mime := fileData.mimeType
          originalFileName := fileData.filename
          folderPath := getUploadPath prefixOpt }
      = .ok { fileUrl := u
              filePath := getUploadPath prefixOpt ++ "/" ++ fileData.filename }) :
    ∃ handle,
      getUploadStream accountId prefixOpt urlBuilder remoteUpload fileData
        = (.ok handle, []) ∧
      handle.promise = .ok { url := handle.url, key := handle.fileKey } := by
  refine ⟨{ writeStreamId := 0
            promise := .ok { url := u
                             key := getUploadPath prefixOpt ++ "/" ++ fileData.filename }
            url := u
            fileKey := getUploadPath prefixOpt ++ "/" ++ fileData.filename }, ?_, rfl⟩
  simp [getUploadStream, hurl, hremote]

/-- Witness for C2: with a remote client that derives `filePath` from the
folder path and filename and `fileUrl` via the same URL rule, the handle's
predicted key and url match the promise's result. -/
theorem getUploadStream_predicted_matches_final_witness :
    ∃ handle,
      getUploadStream "acct" none (fun a k => .ok (a ++ k))
          (fun args =>
            .ok { fileUrl := "acct" ++ (args.folderPath ++ "/" ++ args.originalFileName)
                  filePath := args.folderPath ++ "/" ++ args.originalFileName })
          { filename := "f.png", mimeType := "image/png" }
        = (.ok handle, []) ∧
      handle.promise = .ok { url := handle.url, key := handle.fileKey } :=
  getUploadStream_predicted_matches_final "acct" none (fun a k => .ok (a ++ k))
    (fun args =>
      .ok { fileUrl := "acct" ++ (args.folderPath ++ "/" ++ args.originalFileName)
            filePath := args.folderPath ++ "/" ++ args.originalFileName })
    { filename := "f.png", mimeType := "image/png" }
    ("acct" ++ (getUploadPath none ++ "/" ++ "f.png")) rfl rfl

end Bytescale
